import Mathlib

/-!
Verification of the temperature converter in `task 3/converter-script.js`.

Numbers are modelled as an explicit JS-number type: NaN, signed infinity, or a
finite value represented exactly as a rational.  (IEEE-754 double rounding of
decimal literals is abstracted away: every finite value is kept exact.)
Units are the strings the script switches on.  The DOM-handling part of the
script is modelled as a state transformer over the fields the handler reads
and writes.
-/

/-- A JavaScript number as the converter observes it: `NaN`, a signed
infinity, or a finite value (modelled exactly as a rational). -/
inductive JSNum where
  | nan : JSNum
  | inf (pos : Bool) : JSNum
  | fin (q : ℚ) : JSNum
deriving DecidableEq

namespace JSNum

/-- `x + c` for a finite positive-or-negative literal `c` (JS semantics:
NaN propagates, infinities absorb finite addends). -/
def addC : JSNum → ℚ → JSNum
  | nan, _ => nan
  | inf p, _ => inf p
  | fin q, c => fin (q + c)

/-- `x - c` for a finite literal `c`. -/
def subC : JSNum → ℚ → JSNum
  | nan, _ => nan
  | inf p, _ => inf p
  | fin q, c => fin (q - c)

/-- `x * c` for a positive finite literal `c` (the script only multiplies by
5, 9, 9/5 and 100, so the sign of an infinity is preserved). -/
def mulC : JSNum → ℚ → JSNum
  | nan, _ => nan
  | inf p, _ => inf p
  | fin q, c => fin (q * c)

/-- `x / c` for a positive finite literal `c` (the script only divides by
9, 5 and 100). -/
def divC : JSNum → ℚ → JSNum
  | nan, _ => nan
  | inf p, _ => inf p
  | fin q, c => fin (q / c)

/-- JS `isNaN` on an already-numeric value. -/
def isNaN : JSNum → Bool
  | nan => true
  | _ => false

end JSNum

/-- `Math.round`: round half toward positive infinity on finite values;
`Math.round(NaN) = NaN`, `Math.round(±∞) = ±∞`. -/
def mathRound : JSNum → JSNum
  | JSNum.nan => JSNum.nan
  | JSNum.inf p => JSNum.inf p
  | JSNum.fin q => JSNum.fin (⌊q + 1 / 2⌋ : ℤ)

/-- Line 69 of the script: `Math.round(result * 100) / 100`. -/
def round2 (x : JSNum) : JSNum :=
  (mathRound (x.mulC 100)).divC 100

/-- The same rounding on a finite value, at the rational level. -/
def round2q (x : ℚ) : ℚ :=
  (⌊x * 100 + 1 / 2⌋ : ℤ) / 100

/-! ### The model of `parseFloat` (ECMA-262 StrDecimalLiteral, longest prefix) -/

/-- The whitespace characters `parseFloat` skips (the common ASCII ones). -/
def jsWhitespace (c : Char) : Bool :=
  c = ' ' ∨ c = '\t' ∨ c = '\n' ∨ c = '\r' ∨ c = '\x0b' ∨ c = '\x0c'

/-- Split a leading run of decimal digits off a character list, returning
their values and the rest. -/
def takeDigits : List Char → List ℕ × List Char
  | [] => ([], [])
  | c :: rest =>
    if c.isDigit then
      let p := takeDigits rest
      ((c.toNat - 48) :: p.1, p.2)
    else ([], c :: rest)

/-- The natural number denoted by a list of digit values. -/
def natOfDigits (ds : List ℕ) : ℕ :=
  ds.foldl (fun a d => 10 * a + d) 0

/-- The syntactic outcome of `parseFloat`: no numeric prefix at all, a signed
`Infinity`, or a finite literal recorded as its sign, integer-part digits,
fraction-part digits and exponent. -/
inductive ParseOut where
  | nan : ParseOut
  | inf (pos : Bool) : ParseOut
  | fin (sign : Bool) (ip fp : List ℕ) (ex : ℤ) : ParseOut
deriving DecidableEq

/-- The syntactic phase of `parseFloat` on a character list: skip whitespace,
optional sign, then the longest `Infinity`-or-decimal-literal prefix;
`nan` when there is none (ECMA-262 StrDecimalLiteral). -/
def parseRaw (cs : List Char) : ParseOut :=
  let cs₁ := cs.dropWhile jsWhitespace
  let sc : Bool × List Char :=
    match cs₁ with
    | '+' :: r => (true, r)
    | '-' :: r => (false, r)
    | _ => (true, cs₁)
  let sign := sc.1
  let body := sc.2
  if body.take 8 = ['I', 'n', 'f', 'i', 'n', 'i', 't', 'y'] then ParseOut.inf sign
  else
    let ip := takeDigits body
    let fp : List ℕ × List Char :=
      match ip.2 with
      | '.' :: r => takeDigits r
      | _ => ([], ip.2)
    if ip.1 = [] ∧ fp.1 = [] then ParseOut.nan
    else
      let expo : ℤ :=
        match fp.2 with
        | c :: r3 =>
          if c = 'e' ∨ c = 'E' then
            let se : ℤ × List Char :=
              match r3 with
              | '+' :: r => (1, r)
              | '-' :: r => (-1, r)
              | _ => (1, r3)
            let ed := takeDigits se.2
            if ed.1 = [] then 0 else se.1 * (natOfDigits ed.1 : ℤ)
          else 0
        | [] => 0
      ParseOut.fin sign ip.1 fp.1 expo

/-- The mathematical value of a parse outcome, kept exact as a rational
(IEEE-754 rounding of the decimal literal to a double is abstracted away). -/
def ParseOut.value : ParseOut → JSNum
  | ParseOut.nan => JSNum.nan
  | ParseOut.inf p => JSNum.inf p
  | ParseOut.fin sign ip fp ex =>
      JSNum.fin ((if sign then 1 else -1) *
        ((natOfDigits ip : ℚ) + (natOfDigits fp : ℚ) / 10 ^ fp.length) * 10 ^ ex)

/-- JS `parseFloat` on a string. -/
def parseFloat (s : String) : JSNum :=
  (parseRaw s.data).value

/-! ### The conversion engine (lines 93–153) -/

/-- Lines 110–127: convert any temperature TO Celsius.  The `switch` on the
unit string becomes an `if` chain; the `default` branch returns the value
unchanged. -/
def convertToCelsius (value : JSNum) (unit : String) : JSNum :=
  if unit = "celsius" then value
  else if unit = "fahrenheit" then ((value.subC 32).mulC 5).divC 9
  else if unit = "kelvin" then value.subC (273.15 : ℚ)
  else value

/-- Lines 136–153: convert FROM Celsius to any temperature unit. -/
def convertFromCelsius (celsius : JSNum) (unit : String) : JSNum :=
  if unit = "celsius" then celsius
  else if unit = "fahrenheit" then ((celsius.mulC 9).divC 5).addC 32
  else if unit = "kelvin" then celsius.addC (273.15 : ℚ)
  else celsius

/-- Lines 93–101: convert through Celsius as an intermediate step. -/
def convertTo (value : JSNum) (fromUnit toUnit : String) : JSNum :=
  convertFromCelsius (convertToCelsius value fromUnit) toUnit

/-! ### The validation pipeline (lines 40–76, engine part) -/

/-- The two user-facing validation failures of the handler. -/
inductive TempError where
  | invalidNumber : TempError
  | sameUnit : TempError
deriving DecidableEq

/-- The engine behind `convertTemperature` (lines 44–69): parse the raw
string, reject the empty string or a NaN parse, reject equal units,
otherwise convert and round to 2 decimal places. -/
def convertTemperature (raw inputUnit outputUnit : String) :
    Except TempError JSNum :=
  let temperatureValue := parseFloat raw
  if raw = "" ∨ temperatureValue.isNaN then Except.error TempError.invalidNumber
  else if inputUnit = outputUnit then Except.error TempError.sameUnit
  else Except.ok (round2 (convertTo temperatureValue inputUnit outputUnit))

/-! ### The DOM handler (lines 40–76) as a state transformer

The handler reads the input field and the two checked radio groups, and
writes the error banner, the success banner and the two result displays.
Only those fields are modelled.  The rendered result text
value-degree-symbol is abstracted as the pair (value, symbol) it is built
from, so JS number-to-string formatting does not have to be modelled. -/

/-- The DOM fields the script reads and writes. -/
structure DomState where
  inputValue : String
  inputUnit : String
  outputUnit : String
  errorMessage : String
  errorShown : Bool
  successMessage : String
  successShown : Bool
  inputDisplay : Option (JSNum × String)
  outputDisplay : Option (JSNum × String)
deriving DecidableEq

/-- Lines 183–194: the symbol of a temperature unit. -/
def getUnitSymbol (unit : String) : String :=
  if unit = "celsius" then "C"
  else if unit = "fahrenheit" then "F"
  else if unit = "kelvin" then "K"
  else ""

/-- Lines 219–224: clear all error and success messages. -/
def clearMessages (s : DomState) : DomState :=
  { s with errorShown := false, successShown := false,
           errorMessage := "", successMessage := "" }

/-- Lines 201–204: display an error message. -/
def showError (message : String) (s : DomState) : DomState :=
  { s with errorMessage := "❌ " ++ message, errorShown := true }

/-- Lines 211–214: display a success message. -/
def showSuccess (message : String) (s : DomState) : DomState :=
  { s with successMessage := "✓ " ++ message, successShown := true }

/-- Lines 167–175: render both result displays (text content abstracted as
the value/symbol pair it is formatted from). -/
def displayResult (inputValue : JSNum) (inputUnit : String)
    (outputValue : JSNum) (outputUnit : String) (s : DomState) : DomState :=
  { s with inputDisplay := some (inputValue, getUnitSymbol inputUnit),
           outputDisplay := some (outputValue, getUnitSymbol outputUnit) }

/-- Lines 40–76: the full click handler `convertTemperature` as a state
transformer over the modelled DOM fields. -/
def convertTemperatureDom (s0 : DomState) : DomState :=
  let s := clearMessages s0
  let temperatureValue := parseFloat s.inputValue
  let inputUnit := s.inputUnit
  let outputUnit := s.outputUnit
  if s.inputValue = "" ∨ temperatureValue.isNaN then
    showError "Please enter a valid number" s
  else if inputUnit = outputUnit then
    showError "Please select different input and output units" s
  else
    let result := round2 (convertTo temperatureValue inputUnit outputUnit)
    showSuccess "Temperature converted successfully!"
      (displayResult temperatureValue inputUnit result outputUnit s)

/-- The user-visible output fields of a DOM state. -/
def rendered (s : DomState) :
    Bool × String × Bool × String × Option (JSNum × String) × Option (JSNum × String) :=
  (s.errorShown, s.errorMessage, s.successShown, s.successMessage,
   s.inputDisplay, s.outputDisplay)

/-- Round half away from zero to 2 decimal places: the rounding rule the
spec names, kept for comparison with the `Math.round` based rounding of
the script. -/
def specRoundAway2 (x : ℚ) : ℚ :=
  if 0 ≤ x then (⌊x * 100 + 1 / 2⌋ : ℤ) / 100
  else -((⌊-x * 100 + 1 / 2⌋ : ℤ) / 100 : ℚ)

/-! ### Helper lemmas -/

theorem round2_fin (q : ℚ) : round2 (JSNum.fin q) = JSNum.fin (round2q q) := by
  simp [round2, round2q, mathRound, JSNum.mulC, JSNum.divC]

theorem round2q_err (x : ℚ) : |round2q x - x| ≤ 1 / 200 := by
  have hfl : (⌊x * 100 + 1 / 2⌋ : ℚ) ≤ x * 100 + 1 / 2 := Int.floor_le _
  have hfg : x * 100 + 1 / 2 < (⌊x * 100 + 1 / 2⌋ : ℚ) + 1 := Int.lt_floor_add_one _
  rw [abs_le, round2q]
  constructor <;> linarith

theorem parseFloat_zero : parseFloat "0" = JSNum.fin 0 := by
  have h : parseRaw "0".data = ParseOut.fin true [0] [] 0 := by decide
  show (parseRaw "0".data).value = JSNum.fin 0
  rw [h]
  norm_num [ParseOut.value, natOfDigits]

theorem parseFloat_ten : parseFloat "10" = JSNum.fin 10 := by
  have h : parseRaw "10".data = ParseOut.fin true [1, 0] [] 0 := by decide
  show (parseRaw "10".data).value = JSNum.fin 10
  rw [h]
  norm_num [ParseOut.value, natOfDigits]

theorem parseFloat_thirtytwo : parseFloat "32" = JSNum.fin 32 := by
  have h : parseRaw "32".data = ParseOut.fin true [3, 2] [] 0 := by decide
  show (parseRaw "32".data).value = JSNum.fin 32
  rw [h]
  norm_num [ParseOut.value, natOfDigits]

theorem parseFloat_hundred : parseFloat "100" = JSNum.fin 100 := by
  have h : parseRaw "100".data = ParseOut.fin true [1, 0, 0] [] 0 := by decide
  show (parseRaw "100".data).value = JSNum.fin 100
  rw [h]
  norm_num [ParseOut.value, natOfDigits]

theorem parseFloat_neg273155 : parseFloat "-273.155" = JSNum.fin (-273.155) := by
  have h : parseRaw "-273.155".data = ParseOut.fin false [2, 7, 3] [1, 5, 5] 0 := by decide
  show (parseRaw "-273.155".data).value = JSNum.fin (-273.155)
  rw [h]
  norm_num [ParseOut.value, natOfDigits]

theorem parseFloat_empty : parseFloat "" = JSNum.nan := by decide

theorem parseFloat_abc : parseFloat "abc" = JSNum.nan := by decide

theorem parseFloat_infinity : parseFloat "Infinity" = JSNum.inf true := by decide

/-- Evaluating the pipeline on a raw string once its parse is known finite. -/
theorem convertTemperature_fin (raw u u' : String) (q : ℚ)
    (hq : parseFloat raw = JSNum.fin q) (hne : u ≠ u') :
    convertTemperature raw u u' =
      Except.ok (round2 (convertTo (JSNum.fin q) u u')) := by
  have hraw : raw ≠ "" := by
    intro h
    rw [h, parseFloat_empty] at hq
    exact JSNum.noConfusion hq
  unfold convertTemperature
  rw [hq]
  simp [JSNum.isNaN, hraw, hne]

/-! ### The claims -/

/-- C1: for every finite numeric value (in particular every one that passes
validation), conversion is Celsius-mediated with exactly the specified case
formulas: `convertTo` is the composition of `convertToCelsius` and
`convertFromCelsius`, and the six unit cases compute the stated formulas. -/
theorem C1_celsius_mediated_formulas (v : ℚ) (fromUnit toUnit : String) :
    convertTo (JSNum.fin v) fromUnit toUnit
        = convertFromCelsius (convertToCelsius (JSNum.fin v) fromUnit) toUnit
    ∧ convertToCelsius (JSNum.fin v) "celsius" = JSNum.fin v
    ∧ convertToCelsius (JSNum.fin v) "fahrenheit" = JSNum.fin ((v - 32) * 5 / 9)
    ∧ convertToCelsius (JSNum.fin v) "kelvin" = JSNum.fin (v - 273.15)
    ∧ convertFromCelsius (JSNum.fin v) "celsius" = JSNum.fin v
    ∧ convertFromCelsius (JSNum.fin v) "fahrenheit" = JSNum.fin (v * 9 / 5 + 32)
    ∧ convertFromCelsius (JSNum.fin v) "kelvin" = JSNum.fin (v + 273.15) := by
  refine ⟨rfl, ?_, ?_, ?_, ?_, ?_, ?_⟩ <;>
    simp [convertToCelsius, convertFromCelsius,
      JSNum.subC, JSNum.addC, JSNum.mulC, JSNum.divC]

/-- C2: the four numeric test vectors hold after rounding to 2 decimal
places. -/
theorem C2_test_vectors :
    convertTemperature "0" "celsius" "fahrenheit" = Except.ok (JSNum.fin 32)
    ∧ convertTemperature "32" "fahrenheit" "celsius" = Except.ok (JSNum.fin 0)
    ∧ convertTemperature "0" "celsius" "kelvin" = Except.ok (JSNum.fin 273.15)
    ∧ convertTemperature "100" "celsius" "fahrenheit" = Except.ok (JSNum.fin 212) := by
  refine ⟨?_, ?_, ?_, ?_⟩
  · rw [convertTemperature_fin "0" "celsius" "fahrenheit" 0 parseFloat_zero (by decide)]
    simp [convertTo, convertToCelsius, convertFromCelsius,
      JSNum.subC, JSNum.addC, JSNum.mulC, JSNum.divC, round2_fin]
    norm_num [round2q]
  · rw [convertTemperature_fin "32" "fahrenheit" "celsius" 32 parseFloat_thirtytwo (by decide)]
    simp [convertTo, convertToCelsius, convertFromCelsius,
      JSNum.subC, JSNum.addC, JSNum.mulC, JSNum.divC, round2_fin]
    norm_num [round2q]
  · rw [convertTemperature_fin "0" "celsius" "kelvin" 0 parseFloat_zero (by decide)]
    simp [convertTo, convertToCelsius, convertFromCelsius,
      JSNum.subC, JSNum.addC, JSNum.mulC, JSNum.divC, round2_fin]
    norm_num [round2q]
  · rw [convertTemperature_fin "100" "celsius" "fahrenheit" 100 parseFloat_hundred (by decide)]
    simp [convertTo, convertToCelsius, convertFromCelsius,
      JSNum.subC, JSNum.addC, JSNum.mulC, JSNum.divC, round2_fin]
    norm_num [round2q]

/-- C3 counterexample: the raw input "Infinity" is not parseable as a finite
decimal number, yet the script accepts it (the check is `isNaN`, not
finiteness) and returns the converted infinity instead of InvalidNumber. -/
theorem C3_infinity_accepted_counterexample :
    convertTemperature "Infinity" "celsius" "fahrenheit" = Except.ok (JSNum.inf true)
    ∧ convertTemperature "Infinity" "celsius" "fahrenheit"
        ≠ Except.error TempError.invalidNumber := by
  have h : convertTemperature "Infinity" "celsius" "fahrenheit"
      = Except.ok (JSNum.inf true) := by
    unfold convertTemperature
    rw [parseFloat_infinity]
    simp [JSNum.isNaN, convertTo, convertToCelsius, convertFromCelsius, round2, mathRound,
      JSNum.subC, JSNum.addC, JSNum.mulC, JSNum.divC]
  exact ⟨h, by rw [h]; exact fun hc => Except.noConfusion hc⟩

/-- C3 amended: convert fails with InvalidNumber exactly when the raw input
is the empty string or `parseFloat` yields NaN (no numeric prefix); inputs
parsing to non-finite values such as "Infinity" pass validation. -/
theorem C3_invalid_number_iff_empty_or_nan (raw u u' : String) :
    convertTemperature raw u u' = Except.error TempError.invalidNumber
      ↔ (raw = "" ∨ (parseFloat raw).isNaN = true) := by
  unfold convertTemperature
  by_cases h1 : raw = "" ∨ (parseFloat raw).isNaN = true
  · rw [if_pos h1]
    simp [h1]
  · rw [if_neg h1]
    by_cases h2 : u = u'
    · rw [if_pos h2]
      simp [h1]
    · rw [if_neg h2]
      simp [h1]

/-- C4: for every raw input that parses as a finite number, equal source and
target units (among the three recognised units) fail with SameUnit. -/
theorem C4_same_unit_error (raw u u' : String) (q : ℚ)
    (hq : parseFloat raw = JSNum.fin q)
    (_hu : u = "celsius" ∨ u = "fahrenheit" ∨ u = "kelvin")
    (he : u = u') :
    convertTemperature raw u u' = Except.error TempError.sameUnit := by
  subst he
  have hraw : ¬(raw = "" ∨ (parseFloat raw).isNaN = true) := by
    rintro (h | h)
    · rw [h, parseFloat_empty] at hq
      exact JSNum.noConfusion hq
    · rw [hq] at h
      simp [JSNum.isNaN] at h
  unfold convertTemperature
  rw [if_neg hraw, if_pos rfl]

/-- C4 witness at the concrete input from the test list in the spec. -/
theorem C4_same_unit_error_witness :
    parseFloat "10" = JSNum.fin 10
    ∧ convertTemperature "10" "celsius" "celsius" = Except.error TempError.sameUnit :=
  ⟨parseFloat_ten,
   C4_same_unit_error "10" "celsius" "celsius" 10 parseFloat_ten (Or.inl rfl) rfl⟩

/-- C5 counterexample: "Infinity" is not parseable as a finite number, yet
with equal units the script reports SameUnit, not InvalidNumber, because the
numeric check only rejects NaN. -/
theorem C5_infinity_same_unit_counterexample :
    convertTemperature "Infinity" "celsius" "celsius" = Except.error TempError.sameUnit
    ∧ (Except.error TempError.sameUnit : Except TempError JSNum)
        ≠ Except.error TempError.invalidNumber := by
  constructor
  · unfold convertTemperature
    rw [parseFloat_infinity]
    simp [JSNum.isNaN]
  · intro h
    exact TempError.noConfusion (Except.error.inj h)

/-- C5 amended: the numeric-parse check short-circuits ahead of the
same-unit check for exactly the inputs it rejects: whenever the raw input is
empty or parses to NaN, the result is InvalidNumber, whatever the units
(equal ones included). -/
theorem C5_invalid_number_checked_first (raw u u' : String)
    (h : raw = "" ∨ (parseFloat raw).isNaN = true) :
    convertTemperature raw u u' = Except.error TempError.invalidNumber := by
  unfold convertTemperature
  rw [if_pos h]

/-- C5 witness: a non-numeric input with equal units is InvalidNumber. -/
theorem C5_invalid_number_checked_first_witness :
    (parseFloat "abc").isNaN = true
    ∧ convertTemperature "abc" "celsius" "celsius" = Except.error TempError.invalidNumber :=
  ⟨by rw [parseFloat_abc]; rfl,
   C5_invalid_number_checked_first "abc" "celsius" "celsius"
     (Or.inr (by rw [parseFloat_abc]; rfl))⟩

/-- Shared evaluation: the 0 °C → °F conversion through the full pipeline. -/
theorem convertTemperature_zero_cf :
    convertTemperature "0" "celsius" "fahrenheit" = Except.ok (JSNum.fin 32) := by
  rw [convertTemperature_fin "0" "celsius" "fahrenheit" 0 parseFloat_zero (by decide)]
  simp [convertTo, convertToCelsius, convertFromCelsius,
    JSNum.subC, JSNum.addC, JSNum.mulC, JSNum.divC, round2_fin]
  norm_num [round2q]

/-- C6 counterexample: the validated input "-273.155" converted from Celsius
to Kelvin has pre-rounding value −0.005; round-half-away-from-zero would
give −0.01, but the `Math.round(x*100)/100` step of the script returns 0.00. -/
theorem C6_half_up_counterexample :
    convertTemperature "-273.155" "celsius" "kelvin" = Except.ok (JSNum.fin 0)
    ∧ convertTo (JSNum.fin (-273.155 : ℚ)) "celsius" "kelvin" = JSNum.fin (-(1 / 200))
    ∧ specRoundAway2 (-(1 / 200)) = -(1 / 100)
    ∧ JSNum.fin (0 : ℚ) ≠ JSNum.fin (-(1 / 100) : ℚ) := by
  refine ⟨?_, ?_, ?_, ?_⟩
  · rw [convertTemperature_fin "-273.155" "celsius" "kelvin" (-273.155)
      parseFloat_neg273155 (by decide)]
    simp [convertTo, convertToCelsius, convertFromCelsius,
      JSNum.subC, JSNum.addC, JSNum.mulC, JSNum.divC, round2_fin]
    norm_num [round2q]
  · simp [convertTo, convertToCelsius, convertFromCelsius,
      JSNum.subC, JSNum.addC, JSNum.mulC, JSNum.divC]
    norm_num
  · norm_num [specRoundAway2]
  · simp only [ne_eq, JSNum.fin.injEq]
    norm_num

/-- C6 amended: every validated result is the converted value rounded to 2
decimal places with JS `Math.round`, i.e. round half toward positive
infinity; this agrees with round-half-away-from-zero on nonnegative
pre-rounding values (but not on negative exact halves). -/
theorem C6_rounding_half_toward_posinf (raw u u' : String) (q x : ℚ)
    (h : convertTemperature raw u u' = Except.ok (JSNum.fin q))
    (hx : convertTo (parseFloat raw) u u' = JSNum.fin x) :
    q = round2q x ∧ (0 ≤ x → round2q x = specRoundAway2 x) := by
  have h' : (if raw = "" ∨ (parseFloat raw).isNaN = true then
        Except.error TempError.invalidNumber
      else if u = u' then Except.error TempError.sameUnit
      else Except.ok (round2 (convertTo (parseFloat raw) u u')))
      = Except.ok (JSNum.fin q) := h
  clear h
  split_ifs at h' with h1 h2
  rw [hx, round2_fin] at h'
  simp only [Except.ok.injEq, JSNum.fin.injEq] at h'
  refine ⟨h'.symm, fun h0 => ?_⟩
  rw [round2q, specRoundAway2, if_pos h0]

/-- C6 witness: at input "0", Celsius → Fahrenheit, the returned 32.00 is the
half-up rounding of the exact 32, which agrees with away-from-zero there. -/
theorem C6_rounding_half_toward_posinf_witness :
    (32 : ℚ) = round2q 32 ∧ (0 ≤ (32 : ℚ) → round2q 32 = specRoundAway2 32) :=
  C6_rounding_half_toward_posinf "0" "celsius" "fahrenheit" 32 32
    convertTemperature_zero_cf
    (by rw [parseFloat_zero]
        simp [convertTo, convertToCelsius, convertFromCelsius,
          JSNum.subC, JSNum.addC, JSNum.mulC, JSNum.divC])

/-- C7 counterexample: 32.009 °F → °C rounds to 0.01 °C; converting back
gives 32.018 °F which rounds to 32.02, and |32.02 − 32.009| = 0.011 > 0.01,
so the claimed ±0.01 round-trip tolerance fails. -/
theorem C7_roundtrip_tolerance_counterexample :
    convertTo (JSNum.fin (32.009 : ℚ)) "fahrenheit" "celsius" = JSNum.fin (1 / 200)
    ∧ round2q (1 / 200) = 1 / 100
    ∧ convertTo (JSNum.fin (1 / 100 : ℚ)) "celsius" "fahrenheit" = JSNum.fin (32.018 : ℚ)
    ∧ round2q (32.018 : ℚ) = 32.02
    ∧ ¬(|round2q (32.018 : ℚ) - (32.009 : ℚ)| ≤ 1 / 100) := by
  have h4 : round2q (32.018 : ℚ) = 32.02 := by norm_num [round2q]
  refine ⟨?_, ?_, ?_, h4, ?_⟩
  · simp [convertTo, convertToCelsius, convertFromCelsius,
      JSNum.subC, JSNum.addC, JSNum.mulC, JSNum.divC]
    norm_num
  · norm_num [round2q]
  · simp [convertTo, convertToCelsius, convertFromCelsius,
      JSNum.subC, JSNum.addC, JSNum.mulC, JSNum.divC]
    norm_num
  · rw [h4, abs_of_pos (by norm_num : (0 : ℚ) < 32.02 - 32.009)]
    norm_num

/-- C7 amended: for distinct recognised units the rounded round-trip lands
within ±0.014 of the original value (±0.01 is violated, see the
counterexample; 0.014 = half an ulp of the displayed value plus 9/5 of the
half-ulp introduced by the first rounding). -/
theorem C7_roundtrip_within_0014 (v x y : ℚ) (A B : String)
    (hA : A = "celsius" ∨ A = "fahrenheit" ∨ A = "kelvin")
    (hB : B = "celsius" ∨ B = "fahrenheit" ∨ B = "kelvin")
    (hAB : A ≠ B)
    (hx : convertTo (JSNum.fin v) A B = JSNum.fin x)
    (hy : convertTo (JSNum.fin (round2q x)) B A = JSNum.fin y) :
    |round2q y - v| ≤ 7 / 500 := by
  have h1 := round2q_err x
  have h2 := round2q_err y
  rw [abs_le] at h1 h2 ⊢
  rcases hA with rfl | rfl | rfl <;> rcases hB with rfl | rfl | rfl <;>
    simp [convertTo, convertToCelsius, convertFromCelsius,
      JSNum.subC, JSNum.addC, JSNum.mulC, JSNum.divC] at hx hy <;>
    first
      | exact absurd rfl hAB
      | constructor <;> linarith [h1.1, h1.2, h2.1, h2.2]

/-- C7 witness: the 0 °C → °F → °C round trip stays within ±0.014. -/
theorem C7_roundtrip_within_0014_witness :
    |round2q 0 - (0 : ℚ)| ≤ 7 / 500 :=
  C7_roundtrip_within_0014 0 32 0 "celsius" "fahrenheit"
    (Or.inl rfl) (Or.inr (Or.inl rfl)) (by decide)
    (by simp [convertTo, convertToCelsius, convertFromCelsius,
          JSNum.subC, JSNum.addC, JSNum.mulC, JSNum.divC])
    (by have h : round2q (32 : ℚ) = 32 := by norm_num [round2q]
        rw [h]
        simp [convertTo, convertToCelsius, convertFromCelsius,
          JSNum.subC, JSNum.addC, JSNum.mulC, JSNum.divC])

/-- C8: the conversion engine is deterministic and stateless.  `convertTo`
on the same three read inputs yields the same result; the handler writes
none of the fields it reads, its result depends only on the fields it
actually reads (the three inputs, plus the displays it carries over
unchanged on error paths), and running it twice equals running it once, so
no invocation observes state written by an earlier one. -/
theorem C8_deterministic_stateless (s s' : DomState)
    (h1 : s.inputValue = s'.inputValue)
    (h2 : s.inputUnit = s'.inputUnit)
    (h3 : s.outputUnit = s'.outputUnit)
    (h4 : s.inputDisplay = s'.inputDisplay)
    (h5 : s.outputDisplay = s'.outputDisplay) :
    convertTo (parseFloat s.inputValue) s.inputUnit s.outputUnit
        = convertTo (parseFloat s'.inputValue) s'.inputUnit s'.outputUnit
    ∧ convertTemperatureDom s = convertTemperatureDom s'
    ∧ (convertTemperatureDom s).inputValue = s.inputValue
    ∧ (convertTemperatureDom s).inputUnit = s.inputUnit
    ∧ (convertTemperatureDom s).outputUnit = s.outputUnit
    ∧ convertTemperatureDom (convertTemperatureDom s) = convertTemperatureDom s := by
  obtain ⟨iv, iu, ou, em, es, sm, ss, d1, d2⟩ := s
  obtain ⟨iv', iu', ou', em', es', sm', ss', d1', d2'⟩ := s'
  dsimp only at h1 h2 h3 h4 h5
  subst h1 h2 h3 h4 h5
  refine ⟨rfl, ?_, ?_, ?_, ?_, ?_⟩ <;>
    simp only [convertTemperatureDom, clearMessages, showError, showSuccess,
      displayResult] <;>
    split_ifs <;> rfl

/-- C8 witness: two states with the same inputs and displays but different
prior banner messages. -/
theorem C8_deterministic_stateless_witness :
    convertTo (parseFloat (DomState.mk "10" "celsius" "kelvin" "old error" true "" false none none).inputValue)
        (DomState.mk "10" "celsius" "kelvin" "old error" true "" false none none).inputUnit
        (DomState.mk "10" "celsius" "kelvin" "old error" true "" false none none).outputUnit
      = convertTo (parseFloat (DomState.mk "10" "celsius" "kelvin" "" false "done" true none none).inputValue)
          (DomState.mk "10" "celsius" "kelvin" "" false "done" true none none).inputUnit
          (DomState.mk "10" "celsius" "kelvin" "" false "done" true none none).outputUnit
    ∧ convertTemperatureDom (DomState.mk "10" "celsius" "kelvin" "old error" true "" false none none)
        = convertTemperatureDom (DomState.mk "10" "celsius" "kelvin" "" false "done" true none none)
    ∧ (convertTemperatureDom (DomState.mk "10" "celsius" "kelvin" "old error" true "" false none none)).inputValue
        = (DomState.mk "10" "celsius" "kelvin" "old error" true "" false none none).inputValue
    ∧ (convertTemperatureDom (DomState.mk "10" "celsius" "kelvin" "old error" true "" false none none)).inputUnit
        = (DomState.mk "10" "celsius" "kelvin" "old error" true "" false none none).inputUnit
    ∧ (convertTemperatureDom (DomState.mk "10" "celsius" "kelvin" "old error" true "" false none none)).outputUnit
        = (DomState.mk "10" "celsius" "kelvin" "old error" true "" false none none).outputUnit
    ∧ convertTemperatureDom (convertTemperatureDom (DomState.mk "10" "celsius" "kelvin" "old error" true "" false none none))
        = convertTemperatureDom (DomState.mk "10" "celsius" "kelvin" "old error" true "" false none none) :=
  C8_deterministic_stateless
    (DomState.mk "10" "celsius" "kelvin" "old error" true "" false none none)
    (DomState.mk "10" "celsius" "kelvin" "" false "done" true none none)
    rfl rfl rfl rfl rfl

/-- C9: for every value and every unit string outside the three recognised
ones, both switch defaults return the value unchanged, so an unrecognised
unit on either side of `convertTo` is silently treated as Celsius. -/
theorem C9_unknown_unit_identity (v : JSNum) (u A B : String)
    (h1 : u ≠ "celsius") (h2 : u ≠ "fahrenheit") (h3 : u ≠ "kelvin") :
    convertToCelsius v u = v
    ∧ convertFromCelsius v u = v
    ∧ convertTo v u B = convertTo v "celsius" B
    ∧ convertTo v A u = convertTo v A "celsius" := by
  have hc : convertToCelsius v u = v := by
    simp [convertToCelsius, h1, h2, h3]
  have hf : ∀ w, convertFromCelsius w u = w := fun w => by
    simp [convertFromCelsius, h1, h2, h3]
  have hcc : convertToCelsius v "celsius" = v := by simp [convertToCelsius]
  have hfc : ∀ w, convertFromCelsius w "celsius" = w := fun w => by
    simp [convertFromCelsius]
  refine ⟨hc, hf v, ?_, ?_⟩
  · simp only [convertTo, hc, hcc]
  · simp only [convertTo, hf, hfc]

/-- C9 witness: the unit "rankine" is passed through unchanged. -/
theorem C9_unknown_unit_identity_witness :
    convertToCelsius (JSNum.fin 5) "rankine" = JSNum.fin 5
    ∧ convertFromCelsius (JSNum.fin 5) "rankine" = JSNum.fin 5
    ∧ convertTo (JSNum.fin 5) "rankine" "kelvin" = convertTo (JSNum.fin 5) "celsius" "kelvin"
    ∧ convertTo (JSNum.fin 5) "celsius" "rankine" = convertTo (JSNum.fin 5) "celsius" "celsius" :=
  C9_unknown_unit_identity (JSNum.fin 5) "rankine" "celsius" "kelvin"
    (by decide) (by decide) (by decide)

/-- C10: for recognised units the unrounded conversion is strictly
increasing in the value: every composed conversion is affine with positive
slope 1, 5/9 or 9/5. -/
theorem C10_strictly_increasing (A B : String)
    (hA : A = "celsius" ∨ A = "fahrenheit" ∨ A = "kelvin")
    (hB : B = "celsius" ∨ B = "fahrenheit" ∨ B = "kelvin")
    (x y x' y' : ℚ) (hxy : x < y)
    (hx : convertTo (JSNum.fin x) A B = JSNum.fin x')
    (hy : convertTo (JSNum.fin y) A B = JSNum.fin y') :
    x' < y' := by
  rcases hA with rfl | rfl | rfl <;> rcases hB with rfl | rfl | rfl <;>
    simp [convertTo, convertToCelsius, convertFromCelsius,
      JSNum.subC, JSNum.addC, JSNum.mulC, JSNum.divC] at hx hy <;>
    linarith

/-- C10 witness: 0 °C < 1 °C maps to 273.15 K < 274.15 K. -/
theorem C10_strictly_increasing_witness :
    convertTo (JSNum.fin 0) "celsius" "kelvin" = JSNum.fin 273.15
    ∧ (273.15 : ℚ) < 274.15 :=
  ⟨by simp [convertTo, convertToCelsius, convertFromCelsius,
      JSNum.subC, JSNum.addC, JSNum.mulC, JSNum.divC],
   C10_strictly_increasing "celsius" "kelvin" (Or.inl rfl) (Or.inr (Or.inr rfl))
     0 1 273.15 274.15 (by norm_num)
     (by simp [convertTo, convertToCelsius, convertFromCelsius,
        JSNum.subC, JSNum.addC, JSNum.mulC, JSNum.divC])
     (by simp [convertTo, convertToCelsius, convertFromCelsius,
        JSNum.subC, JSNum.addC, JSNum.mulC, JSNum.divC]
         norm_num)⟩
